import Mathlib

/-!
Verification of the travelclaw API access core against its specification.

The development shallowly embeds the Python sources of the repository:
`amadeus-flights/scripts/auth.py`, `amadeus-experiences/scripts/auth.py`,
`amadeus-flights/scripts/search.py`, `amadeus-flights/scripts/airlines.py` and
`amadeus-flights/scripts/compare_dates.py`.  Pure fragments become Lean
functions; I/O (the token cache file, HTTP responses, the clock) is passed in
explicitly; a Python exception escaping a function is the `.error` branch of an
`Except` result.
-/

namespace Travelclaw

/-- JSON values, as produced by `json.load` and `response.json()`. -/
inductive Json where
  | null : Json
  | bool (b : Bool) : Json
  | num (q : ℚ) : Json
  | str (s : String) : Json
  | arr (elems : List Json) : Json
  | obj (fields : List (String × Json)) : Json

/-- Python exception values that the embedded scripts can raise. -/
inductive PyError where
  | environmentError (msg : String)
  | valueError (msg : String)
  | httpError (status : Nat)
  | attributeError
  | typeError
  | keyError (key : String)
  | indexError
  | jsonDecodeError
  | exception (msg : String)
deriving DecidableEq

/-- Python `d.get(k, default)`: an `AttributeError` when the receiver is not a
dict, the default when the key is missing. -/
def pyGetD (j : Json) (k : String) (dflt : Json) : Except PyError Json :=
  match j with
  | .obj fields => .ok ((fields.lookup k).getD dflt)
  | _ => .error .attributeError

/-- Python `d[k]` subscription: `KeyError` when the key is missing, `TypeError`
when the receiver is not a dict. -/
def pySubscript (j : Json) (k : String) : Except PyError Json :=
  match j with
  | .obj fields =>
      match fields.lookup k with
      | some v => .ok v
      | none => .error (.keyError k)
  | _ => .error .typeError

/-- Numeric view of a JSON value; Python bools are ints. -/
def Json.asNum : Json → Option ℚ
  | .num q => some q
  | .bool b => some (if b then 1 else 0)
  | _ => none

/-- Python comparison `v > x` against a float `x`: `TypeError` unless `v` is
numeric. -/
def pyGtNum (v : Json) (x : ℚ) : Except PyError Bool :=
  match v.asNum with
  | some q => .ok (decide (q > x))
  | none => .error .typeError

/-- Python truthiness of a JSON value. -/
def pyTruthy : Json → Bool
  | .null => false
  | .bool b => b
  | .num q => decide (q ≠ 0)
  | .str s => decide (s ≠ "")
  | .arr elems => !elems.isEmpty
  | .obj fields => !fields.isEmpty

/-- Python `str()` of a JSON value as interpolated into an f-string.  Strings
and scalars are rendered; the rendering of composite values is abstracted (the
claims only exercise string details). -/
def pyStr : Json → String
  | .str s => s
  | .num q => toString q
  | .bool b => if b then "True" else "False"
  | .null => "None"
  | .arr _ => "<list>"
  | .obj _ => "<dict>"

/-- State of the token cache file: `none` means the file is missing,
`some none` means it exists but `json.load` raises `JSONDecodeError`,
`some (some j)` means it parses to the JSON value `j`. -/
abbrev CacheFile := Option (Option Json)

/-- `load_cached_token` from `amadeus-flights/scripts/auth.py`.  The `try`
block catches only `(json.JSONDecodeError, KeyError)`, so any other exception
raised while inspecting the parsed value (for example the `AttributeError`
from `.get` on a non-dict) escapes. -/
def load_cached_token (file : CacheFile) (now : ℚ) : Except PyError (Option Json) :=
  match file with
  | none => .ok none
  | some none => .ok none
  | some (some data) =>
      match pyGetD data "expires_at" (Json.num 0) with
      | .error e => .error e
      | .ok v =>
          match pyGtNum v (now + 60) with
          | .error e => .error e
          | .ok true => .ok (some data)
          | .ok false => .ok none

/-- `load_cached_token` from `amadeus-experiences/scripts/auth.py`: the same
logic under a bare `except`, so every exception is swallowed into the
no-cache result. -/
def load_cached_token_exp (file : CacheFile) (now : ℚ) : Option Json :=
  match file with
  | none => none
  | some none => none
  | some (some data) =>
      match pyGetD data "expires_at" (Json.num 0) with
      | .error _ => none
      | .ok v =>
          match pyGtNum v (now + 60) with
          | .error _ => none
          | .ok b => if b then some data else none

/-- Trace of one `get_token` call: the returned value (or escaped exception)
and the number of `fetch_new_token` network exchanges performed. -/
structure GetTokenTrace where
  result : Except PyError Json
  fetchCalls : Nat

/-- The fetch path of `get_token`: `token_data = fetch_new_token()` followed by
`return token_data["access_token"]`.  The network exchange is abstracted by its
outcome `fetchRes`. -/
def getTokenFetch (fetchRes : Except PyError Json) : GetTokenTrace :=
  match fetchRes with
  | .error e => { result := .error e, fetchCalls := 1 }
  | .ok tokenData => { result := pySubscript tokenData "access_token", fetchCalls := 1 }

/-- `get_token` from `amadeus-flights/scripts/auth.py`: serve
`cached["access_token"]` when `load_cached_token` yields a truthy value,
otherwise perform the exchange. -/
def get_token (file : CacheFile) (now : ℚ) (fetchRes : Except PyError Json) :
    GetTokenTrace :=
  match load_cached_token file now with
  | .error e => { result := .error e, fetchCalls := 0 }
  | .ok (some cached) =>
      if pyTruthy cached then
        { result := pySubscript cached "access_token", fetchCalls := 0 }
      else
        getTokenFetch fetchRes
  | .ok none => getTokenFetch fetchRes

/-- Gregorian leap-year rule, as validated by `datetime`. -/
def isLeapYear (y : Nat) : Bool := (y % 4 == 0 && y % 100 != 0) || y % 400 == 0

/-- Length of a month in the Gregorian calendar. -/
def daysInMonth (y m : Nat) : Nat :=
  if m = 2 then (if isLeapYear y then 29 else 28)
  else if m = 4 ∨ m = 6 ∨ m = 9 ∨ m = 11 then 30
  else 31

/-- Day number of a Gregorian date `(y, m, d)`, counted from 0000-03-01 (the
standard days-from-civil construction), valid for `y ≥ 1`. -/
def daysFromCivil (y m d : Nat) : Nat :=
  let yAdj := if m ≤ 2 then y - 1 else y
  let era := yAdj / 400
  let yoe := yAdj % 400
  let mp := (m + 9) % 12
  let doy := (153 * mp + 2) / 5 + d - 1
  let doe := yoe * 365 + yoe / 4 - yoe / 100 + doy
  era * 146097 + doe

/-- Inverse of `daysFromCivil`: the Gregorian date of a day number. -/
def civilFromDays (z : Nat) : Nat × Nat × Nat :=
  let era := z / 146097
  let doe := z % 146097
  let yoe := (doe - doe / 1460 + doe / 36524 - doe / 146096) / 365
  let doy := doe - (365 * yoe + yoe / 4 - yoe / 100)
  let mp := (5 * doy + 2) / 153
  let d := doy - (153 * mp + 2) / 5 + 1
  let m := if mp < 10 then mp + 3 else mp - 9
  let y := yoe + era * 400
  if m ≤ 2 then (y + 1, m, d) else (y, m, d)

/-- Python `datetime.weekday()`: Monday = 0, ..., Sunday = 6.  Day 0 of the
count (0000-03-01) was a Wednesday; the offset 2 places 1970-01-01
(day 719468) on weekday 3, a Thursday. -/
def weekday (z : Nat) : Nat := (z + 2) % 7

/-- Decimal digit character. -/
def digitChar (n : Nat) : Char := Char.ofNat (48 + n)

/-- Two-digit zero-padded rendering (strftime `%m`, `%d`). -/
def pad2 (n : Nat) : List Char := [digitChar (n / 10 % 10), digitChar (n % 10)]

/-- Four-digit zero-padded rendering (strftime `%Y` for years below 10000). -/
def pad4 (n : Nat) : List Char :=
  [digitChar (n / 1000 % 10), digitChar (n / 100 % 10),
   digitChar (n / 10 % 10), digitChar (n % 10)]

/-- `format_date`: strftime `"%Y-%m-%d"` of a day number. -/
def format_date (z : Nat) : String :=
  match civilFromDays z with
  | (y, m, d) => String.mk (pad4 y ++ '-' :: (pad2 m ++ '-' :: pad2 d))

/-- Split a character list on the dash separator. -/
def splitOnDash : List Char → List (List Char)
  | [] => [[]]
  | c :: cs =>
      let rest := splitOnDash cs
      if c = '-' then [] :: rest
      else
        match rest with
        | [] => [[c]]
        | g :: gs => (c :: g) :: gs

/-- Value of a decimal digit character. -/
def digitVal (c : Char) : Option Nat :=
  if '0' ≤ c ∧ c ≤ '9' then some (c.toNat - 48) else none

/-- One step of decimal accumulation. -/
def readNatStep (acc : Option Nat) (c : Char) : Option Nat :=
  match acc, digitVal c with
  | some n, some d => some (n * 10 + d)
  | _, _ => none

/-- Read a nonempty all-digit character list as a number. -/
def readNat : List Char → Option Nat
  | [] => none
  | cs => cs.foldl readNatStep (some 0)

/-- `parse_date`: `datetime.strptime(s, "%Y-%m-%d")` abstracted to its outcome,
the day number of the parsed date, with `none` standing for the `ValueError`
raised on malformed or out-of-range input. -/
def parse_date (s : String) : Option Nat :=
  match (splitOnDash s.data).map readNat with
  | [some y, some m, some d] =>
      if 1 ≤ y ∧ 1 ≤ m ∧ m ≤ 12 ∧ 1 ≤ d ∧ d ≤ daysInMonth y m then
        some (daysFromCivil y m d)
      else none
  | _ => none

/-- The while loop of `generate_date_range`, with explicit fuel (one unit per
calendar day); `current` and `endDay` are day numbers. -/
def generateLoop (weekendsOnly weekdaysOnly : Bool) :
    Nat → Nat → Nat → List String
  | 0, _, _ => []
  | fuel + 1, current, endDay =>
      if current ≤ endDay then
        (if weekendsOnly && decide (weekday current ≥ 5) then [format_date current]
         else if weekdaysOnly && decide (weekday current < 5) then [format_date current]
         else if !weekendsOnly && !weekdaysOnly then [format_date current]
         else [])
        ++ generateLoop weekendsOnly weekdaysOnly fuel (current + 1) endDay
      else []

/-- `generate_date_range` from `amadeus-flights/scripts/compare_dates.py`:
`none` when either endpoint fails to parse (a raised `ValueError`). -/
def generate_date_range (startDate endDate : String)
    (weekendsOnly weekdaysOnly : Bool) : Option (List String) :=
  match parse_date startDate, parse_date endDate with
  | some a, some b => some (generateLoop weekendsOnly weekdaysOnly (b + 1 - a) a b)
  | _, _ => none

/-- The day-admission condition of the loop body of `generate_date_range`,
factored out of the branch chain. -/
def passFilter (weekendsOnly weekdaysOnly : Bool) (z : Nat) : Bool :=
  if weekendsOnly && decide (weekday z ≥ 5) then true
  else if weekdaysOnly && decide (weekday z < 5) then true
  else !weekendsOnly && !weekdaysOnly

/-- Spec-side filter choice of §4.3: no filter, weekends only, or weekdays
only. -/
inductive DateFilter where
  | noFilter
  | weekendsOnly
  | weekdaysOnly

/-- The boolean flag pair that realises a filter choice in the source. -/
def DateFilter.flags : DateFilter → Bool × Bool
  | .noFilter => (false, false)
  | .weekendsOnly => (true, false)
  | .weekdaysOnly => (false, true)

/-- Spec-side day admission: every day under no filter, Saturday (weekday 5)
and Sunday (weekday 6) under weekendsOnly, Monday through Friday (weekdays
0 to 4) under weekdaysOnly. -/
def DateFilter.admits : DateFilter → Nat → Bool
  | .noFilter, _ => true
  | .weekendsOnly, z => weekday z == 5 || weekday z == 6
  | .weekdaysOnly, z => decide (weekday z < 5)

/-- One HTTP response, with the body given both as raw text and as the outcome
of `response.json()` (`none` when the body is not valid JSON, in which case
`.json()` raises). -/
structure Response where
  status : Nat
  text : String
  jsonBody : Option Json

/-- Trace of one `make_request` call: the returned JSON (or escaped
exception), the sleeps performed in order (seconds), and the number of HTTP
requests issued. -/
structure ReqTrace where
  result : Except PyError Json
  sleeps : List Nat
  requests : Nat

/-- The 400 branch of `make_request`:
`error = response.json().get("errors", [{}])[0]` followed by
`raise ValueError(f"Bad request: {error.get('detail', response.text)}")`.
Subscripting a non-list `errors` value is abstracted to a `TypeError`. -/
def badRequestError (r : Response) : PyError :=
  match r.jsonBody with
  | none => .jsonDecodeError
  | some j =>
      match pyGetD j "errors" (Json.arr [Json.obj []]) with
      | .error e => e
      | .ok (.arr []) => .indexError
      | .ok (.arr (e0 :: _)) =>
          match pyGetD e0 "detail" (Json.str r.text) with
          | .error e => e
          | .ok d => .valueError ("Bad request: " ++ pyStr d)
      | .ok _ => .typeError

/-- The retry loop of `make_request`: `fuel` is the number of remaining loop
iterations, `attempt` the next 0-based attempt index, `waited` the sleeps so
far in reverse order.  On 429 it sleeps `2 ^ attempt` seconds and retries; on
401 it raises `EnvironmentError`; on 400 it raises per `badRequestError`; any
other status in 400..599 is raised as `HTTPError` by `raise_for_status`;
otherwise the parsed body is returned. -/
def makeRequestLoop (responses : Nat → Response) :
    Nat → Nat → List Nat → ReqTrace
  | 0, attempt, waited =>
      { result := .error (.exception "Max retries exceeded due to rate limiting"),
        sleeps := waited.reverse, requests := attempt }
  | fuel + 1, attempt, waited =>
      if (responses attempt).status = 429 then
        makeRequestLoop responses fuel (attempt + 1) (2 ^ attempt :: waited)
      else if (responses attempt).status = 401 then
        { result := .error (.environmentError
            "Authentication failed. Check AMADEUS_API_KEY and AMADEUS_API_SECRET."),
          sleeps := waited.reverse, requests := attempt + 1 }
      else if (responses attempt).status = 400 then
        { result := .error (badRequestError (responses attempt)),
          sleeps := waited.reverse, requests := attempt + 1 }
      else if 400 ≤ (responses attempt).status ∧ (responses attempt).status < 600 then
        { result := .error (.httpError (responses attempt).status),
          sleeps := waited.reverse, requests := attempt + 1 }
      else
        match (responses attempt).jsonBody with
        | some j => { result := .ok j, sleeps := waited.reverse, requests := attempt + 1 }
        | none => { result := .error .jsonDecodeError,
                    sleeps := waited.reverse, requests := attempt + 1 }

/-- `make_request` from `amadeus-flights/scripts/search.py`.  The HTTP layer is
abstracted by `responses`, mapping each attempt index to the response that
attempt receives. -/
def make_request (responses : Nat → Response) (retries : Nat) : ReqTrace :=
  makeRequestLoop responses retries 0 []

/-- The response classification of `lookup_airlines` from
`amadeus-flights/scripts/airlines.py` (the request construction is elided):
a non-200 status is returned as the dict with the raw error payload and the
status code. -/
def lookup_airlines (resp : Response) : Except PyError Json :=
  if resp.status ≠ 200 then
    match resp.jsonBody with
    | some j => .ok (Json.obj [("error", j), ("status", Json.num (resp.status : ℚ))])
    | none => .error .jsonDecodeError
  else
    match resp.jsonBody with
    | some j => .ok j
    | none => .error .jsonDecodeError

/-- The price object of one offer: the fields `compare_dates` reads.  Prices
are modelled as rationals (the scripts convert them with `float`). -/
structure OfferPrice where
  grandTotal : Option ℚ
  total : Option ℚ
  currency : Option String
deriving DecidableEq

/-- One flight segment, reduced to the field `compare_dates` reads. -/
structure Segment where
  carrierCode : String
deriving DecidableEq

/-- One itinerary: a list of segments. -/
structure Itinerary where
  segments : List Segment
deriving DecidableEq

/-- One offer: its price and itineraries. -/
structure Offer where
  price : OfferPrice
  itineraries : List Itinerary
deriving DecidableEq

/-- The envelope a `search_flights` call yields: the offer list under `data`
and the carriers dictionary under `dictionaries.carriers`. -/
structure SearchData where
  data : List Offer
  carriers : List (String × String)
deriving DecidableEq

/-- One comparison-result dict appended by `compare_dates`; fields set only on
one branch are optional. -/
structure Entry where
  departure_date : String
  return_date : Option String
  price : Option ℚ
  currency : String
  stops : Option Int
  carrier : Option String
  carrier_code : Option String
  offers_found : Nat
  error : Option String
deriving DecidableEq

/-- The body of the per-date `try`/`except` in `compare_dates`: an exception
message from the search becomes an error entry, an empty offer list becomes a
"No flights found" entry, and otherwise the first offer is summarised. -/
def buildEntry (departure : String) (ret : Option String) (currency : String)
    (searchRes : Except String SearchData) : Entry :=
  match searchRes with
  | .error msg =>
      { departure_date := departure, return_date := ret, price := none,
        currency := currency, stops := none, carrier := none,
        carrier_code := none, offers_found := 0, error := some msg }
  | .ok data =>
      match data.data with
      | [] =>
          { departure_date := departure, return_date := ret, price := none,
            currency := currency, stops := none, carrier := none,
            carrier_code := none, offers_found := 0,
            error := some "No flights found" }
      | cheapest :: restOffers =>
          let total : ℚ := cheapest.price.grandTotal.getD (cheapest.price.total.getD 0)
          let outboundSegs : List Segment :=
            match cheapest.itineraries with
            | [] => []
            | it :: _ => it.segments
          let code : String :=
            match outboundSegs with
            | [] => ""
            | s :: _ => s.carrierCode
          { departure_date := departure, return_date := ret,
            price := some total,
            currency := cheapest.price.currency.getD currency,
            stops := some ((outboundSegs.length : Int) - 1),
            carrier := some ((data.carriers.lookup code).getD code),
            carrier_code := some code,
            offers_found := restOffers.length + 1, error := none }

/-- The return-date computation at the top of the `compare_dates` loop, which
runs outside the `try`/`except`: `return_after_days` is Python-truthy only
when nonzero, and a failing `strptime` raises `ValueError` out of the whole
batch. -/
def returnDateFor (returnAfterDays : Option Nat) (departure : String) :
    Except PyError (Option String) :=
  match returnAfterDays with
  | none => .ok none
  | some n =>
      if n = 0 then .ok none
      else
        match parse_date departure with
        | none => .error (.valueError "time data does not match format")
        | some z => .ok (some (format_date (z + n)))

/-- The return-date value under a successful parse (pure view of
`returnDateFor`). -/
def returnDatePure (returnAfterDays : Option Nat) (departure : String) :
    Option String :=
  match returnAfterDays with
  | none => none
  | some n =>
      if n = 0 then none
      else (parse_date departure).map (fun z => format_date (z + n))

/-- One iteration of the `compare_dates` loop for one departure date.  The
`searchFn` argument abstracts `search_flights` by its outcome per
(date, return date) pair; `.error msg` is the exception message the `except`
branch would record. -/
def processDate (searchFn : String → Option String → Except String SearchData)
    (returnAfterDays : Option Nat) (currency : String) (departure : String) :
    Except PyError Entry :=
  match returnDateFor returnAfterDays departure with
  | .error e => .error e
  | .ok ret => .ok (buildEntry departure ret currency (searchFn departure ret))

/-- The whole `compare_dates` loop: dates processed sequentially, the first
escaped exception aborting the batch. -/
def processAll (searchFn : String → Option String → Except String SearchData)
    (returnAfterDays : Option Nat) (currency : String) :
    List String → Except PyError (List Entry)
  | [] => .ok []
  | d :: ds =>
      match processDate searchFn returnAfterDays currency d with
      | .error e => .error e
      | .ok en =>
          match processAll searchFn returnAfterDays currency ds with
          | .error e => .error e
          | .ok ens => .ok (en :: ens)

/-- The Python sort key `lambda x: (x["price"] is None, x["price"] or
float("inf"))`.  A price of `0` is falsy, so `or` replaces it by infinity,
modelled as the top element. -/
def sortKey (e : Entry) : Bool × WithTop ℚ :=
  (e.price.isNone,
   match e.price with
   | none => ⊤
   | some q => if q = 0 then ⊤ else (q : WithTop ℚ))

/-- Non-strict comparison of sort keys: Python's lexicographic tuple order
with `False < True` on the first component. -/
def keyLE (a b : Entry) : Bool :=
  ((sortKey a).1 == (sortKey b).1 && decide ((sortKey a).2 ≤ (sortKey b).2))
    || (!(sortKey a).1 && (sortKey b).1)

/-- Stable insertion: the element is placed before the first element whose key
is not smaller. -/
def insortEntry (x : Entry) : List Entry → List Entry
  | [] => [x]
  | y :: ys => if keyLE x y then x :: y :: ys else y :: insortEntry x ys

/-- `results.sort(key=...)` modelled as a stable insertion sort (Python's sort
is stable, so any stable sort under the same key is extensionally equal). -/
def sortResults : List Entry → List Entry
  | [] => []
  | x :: xs => insortEntry x (sortResults xs)

/-- Python truthiness of `entry["price"]`: both `None` and `0.0` are falsy. -/
def priceTruthy : Option ℚ → Bool
  | none => false
  | some q => decide (q ≠ 0)

/-- The cheapest selection of `compare_dates`:
`results[0] if results and results[0]["price"] else None`. -/
def cheapestOf (sorted : List Entry) : Option Entry :=
  match sorted with
  | [] => none
  | r0 :: _ => if priceTruthy r0.price then some r0 else none

/-- The dict returned by `compare_dates`. -/
structure CompareResult where
  origin : String
  destination : String
  comparison : List Entry
  cheapest : Option Entry
deriving DecidableEq

/-- `compare_dates` from `amadeus-flights/scripts/compare_dates.py`: process
every date, sort by the price key, and pick `results[0]` as cheapest only when
the batch is nonempty and its first price is truthy. -/
def compare_dates (searchFn : String → Option String → Except String SearchData)
    (origin destination : String) (dates : List String)
    (returnAfterDays : Option Nat) (currency : String) :
    Except PyError CompareResult :=
  match processAll searchFn returnAfterDays currency dates with
  | .error e => .error e
  | .ok results =>
      .ok { origin := origin, destination := destination,
            comparison := sortResults results,
            cheapest := cheapestOf (sortResults results) }

/-- The entry `compare_dates` records for one date when the return-date
computation succeeds: the pure view of one loop iteration. -/
def entryOf (searchFn : String → Option String → Except String SearchData)
    (returnAfterDays : Option Nat) (currency : String) (departure : String) :
    Entry :=
  buildEntry departure (returnDatePure returnAfterDays departure) currency
    (searchFn departure (returnDatePure returnAfterDays departure))

/-- An offer priced at `q`, used in the concrete comparator scenarios. -/
def exOffer (q : ℚ) : Offer :=
  { price := { grandTotal := some q, total := none, currency := some "GBP" },
    itineraries := [{ segments := [{ carrierCode := "BA" }] }] }

/-- Search outcomes realising the spec scenario: prices 120, absent,
95, absent (a raised error), 200 for dates d1..d5. -/
def exSearchFn : String → Option String → Except String SearchData := fun d _ =>
  if d = "d1" then .ok { data := [exOffer 120], carriers := [] }
  else if d = "d2" then .ok { data := [], carriers := [] }
  else if d = "d3" then .ok { data := [exOffer 95], carriers := [] }
  else if d = "d4" then .error "boom"
  else .ok { data := [exOffer 200], carriers := [] }

/-- The entry `compare_dates` builds for a zero-priced offer on
2026-03-15. -/
def zeroEntry : Entry :=
  { departure_date := "2026-03-15", return_date := none, price := some 0,
    currency := "GBP", stops := some 0, carrier := some "BA",
    carrier_code := some "BA", offers_found := 1, error := none }

/-- The entry `compare_dates` records for the single date a when its search
raises the message x. -/
def failEntryA : Entry :=
  { departure_date := "a", return_date := none, price := none, currency := "GBP",
    stops := none, carrier := none, carrier_code := none, offers_found := 0,
    error := some "x" }

/-- The batch result for that single failing date. -/
def c4Res : CompareResult :=
  { origin := "LHR", destination := "BCN", comparison := [failEntryA],
    cheapest := none }

/-- A server-error response used in the dispatcher scenarios. -/
def resp500 : Response :=
  { status := 500, text := "oops", jsonBody := some (Json.obj []) }

/-- A 400 response whose JSON body carries an empty errors array. -/
def resp400empty : Response :=
  { status := 400, text := "T",
    jsonBody := some (Json.obj [("errors", Json.arr [])]) }

/-- A 400 response whose first error object carries the detail D. -/
def resp400detail : Response :=
  { status := 400, text := "T",
    jsonBody := some (Json.obj [("errors",
      Json.arr [Json.obj [("detail", Json.str "D")]])]) }

/-- A 404 response with a JSON error payload. -/
def resp404 : Response :=
  { status := 404, text := "nf", jsonBody := some (Json.str "x") }

/-- The shape of cached JSON on which the flights `load_cached_token` is
exception-free: an object whose `expires_at` field, if present, is numeric. -/
def flightsSafeJson : Json → Prop
  | .obj fields =>
      match fields.lookup "expires_at" with
      | some v => v.asNum.isSome = true
      | none => True
  | _ => False

theorem keyLE_iff (a b : Entry) :
    keyLE a b = true ↔
      ((sortKey a).1 = (sortKey b).1 ∧ (sortKey a).2 ≤ (sortKey b).2)
        ∨ ((sortKey a).1 = false ∧ (sortKey b).1 = true) := by
  simp [keyLE, Bool.or_eq_true, Bool.and_eq_true, Bool.not_eq_true']

theorem keyLE_of_eq {a b : Entry} (h : sortKey a = sortKey b) : keyLE a b = true :=
  (keyLE_iff a b).mpr (Or.inl ⟨congrArg Prod.fst h, le_of_eq (congrArg Prod.snd h)⟩)

theorem keyLE_total (a b : Entry) : keyLE a b = true ∨ keyLE b a = true := by
  rcases le_total (sortKey a).2 (sortKey b).2 with h | h
  · cases h1 : (sortKey a).1 <;> cases h2 : (sortKey b).1
    · exact Or.inl ((keyLE_iff a b).mpr (Or.inl ⟨by rw [h1, h2], h⟩))
    · exact Or.inl ((keyLE_iff a b).mpr (Or.inr ⟨h1, h2⟩))
    · exact Or.inr ((keyLE_iff b a).mpr (Or.inr ⟨h2, h1⟩))
    · exact Or.inl ((keyLE_iff a b).mpr (Or.inl ⟨by rw [h1, h2], h⟩))
  · cases h1 : (sortKey a).1 <;> cases h2 : (sortKey b).1
    · exact Or.inr ((keyLE_iff b a).mpr (Or.inl ⟨by rw [h1, h2], h⟩))
    · exact Or.inl ((keyLE_iff a b).mpr (Or.inr ⟨h1, h2⟩))
    · exact Or.inr ((keyLE_iff b a).mpr (Or.inr ⟨h2, h1⟩))
    · exact Or.inr ((keyLE_iff b a).mpr (Or.inl ⟨by rw [h1, h2], h⟩))

theorem keyLE_trans {a b c : Entry} (h1 : keyLE a b = true)
    (h2 : keyLE b c = true) : keyLE a c = true := by
  rw [keyLE_iff] at h1 h2 ⊢
  rcases h1 with ⟨e1, l1⟩ | ⟨f1, t1⟩
  · rcases h2 with ⟨e2, l2⟩ | ⟨f2, t2⟩
    · exact Or.inl ⟨e1.trans e2, l1.trans l2⟩
    · exact Or.inr ⟨e1.trans f2, t2⟩
  · rcases h2 with ⟨e2, l2⟩ | ⟨f2, t2⟩
    · exact Or.inr ⟨f1, e2 ▸ t1⟩
    · rw [t1] at f2
      exact absurd f2 (by decide)

theorem insort_perm (x : Entry) (l : List Entry) :
    (insortEntry x l).Perm (x :: l) := by
  induction l with
  | nil => exact List.Perm.refl _
  | cons y ys ih =>
      by_cases h : keyLE x y = true
      · rw [insortEntry, if_pos h]
      · rw [insortEntry, if_neg h]
        exact (ih.cons y).trans (List.Perm.swap x y ys)

theorem insort_pairwise (x : Entry) (l : List Entry)
    (hl : l.Pairwise fun a b => keyLE a b = true) :
    (insortEntry x l).Pairwise fun a b => keyLE a b = true := by
  induction l with
  | nil => simp [insortEntry]
  | cons y ys ih =>
      rcases List.pairwise_cons.mp hl with ⟨hy, hys⟩
      by_cases h : keyLE x y = true
      · rw [insortEntry, if_pos h]
        refine List.pairwise_cons.mpr ⟨?_, hl⟩
        intro z hz
        rcases List.mem_cons.mp hz with rfl | hz2
        · exact h
        · exact keyLE_trans h (hy z hz2)
      · rw [insortEntry, if_neg h]
        refine List.pairwise_cons.mpr ⟨?_, ih hys⟩
        intro z hz
        rcases List.mem_cons.mp ((insort_perm x ys).mem_iff.mp hz) with hzx | hz3
        · rcases keyLE_total x y with h1 | h1
          · exact absurd h1 h
          · rw [hzx]
            exact h1
        · exact hy z hz3

theorem sortResults_perm (l : List Entry) : (sortResults l).Perm l := by
  induction l with
  | nil => exact List.Perm.refl _
  | cons x xs ih => exact (insort_perm x (sortResults xs)).trans (ih.cons x)

theorem sortResults_pairwise (l : List Entry) :
    (sortResults l).Pairwise fun a b => keyLE a b = true := by
  induction l with
  | nil => simp [sortResults]
  | cons x xs ih => exact insort_pairwise x (sortResults xs) ih

theorem insort_filter (x : Entry) (l : List Entry) (k : Bool × WithTop ℚ) :
    (insortEntry x l).filter (fun e => decide (sortKey e = k))
      = (x :: l).filter (fun e => decide (sortKey e = k)) := by
  induction l with
  | nil => rfl
  | cons y ys ih =>
      by_cases h : keyLE x y = true
      · rw [insortEntry, if_pos h]
      · rw [insortEntry, if_neg h]
        have hne : sortKey x ≠ sortKey y := fun he => h (keyLE_of_eq he)
        by_cases hx : sortKey x = k
        · have hy2 : ¬ sortKey y = k := fun hy3 => hne (hx.trans hy3.symm)
          simp [List.filter_cons, ih, hx, hy2]
        · by_cases hy2 : sortKey y = k <;> simp [List.filter_cons, ih, hx, hy2]

theorem sortResults_filter (l : List Entry) (k : Bool × WithTop ℚ) :
    (sortResults l).filter (fun e => decide (sortKey e = k))
      = l.filter (fun e => decide (sortKey e = k)) := by
  induction l with
  | nil => rfl
  | cons x xs ih =>
      rw [sortResults, insort_filter, List.filter_cons, List.filter_cons, ih]

theorem weekday_lt (z : Nat) : weekday z < 7 := by
  unfold weekday
  omega

theorem branch_eq (we wd : Bool) (current : Nat) :
    (if we && decide (weekday current ≥ 5) then [format_date current]
     else if wd && decide (weekday current < 5) then [format_date current]
     else if !we && !wd then [format_date current] else [])
      = (if passFilter we wd current then [format_date current] else []) := by
  unfold passFilter
  by_cases h1 : (we && decide (weekday current ≥ 5)) = true
  · simp [h1]
  · by_cases h2 : (wd && decide (weekday current < 5)) = true
    · simp [h1, h2]
    · by_cases h3 : (!we && !wd) = true <;> simp [h1, h2, h3]

theorem range_map_shift (n cur : Nat) :
    (List.range (n + 1)).map (fun i => cur + i)
      = cur :: (List.range n).map (fun i => cur + 1 + i) := by
  rw [List.range_succ_eq_map, List.map_cons, List.map_map]
  simp only [Nat.add_zero]
  refine congrArg (List.cons cur) (List.map_congr_left ?_)
  intro i _
  simp only [Function.comp_apply]
  omega

theorem generateLoop_eq (we wd : Bool) :
    ∀ (fuel current endDay : Nat), fuel = endDay + 1 - current →
      generateLoop we wd fuel current endDay
        = (((List.range fuel).map (fun i => current + i)).filter
            (passFilter we wd)).map format_date := by
  intro fuel
  induction fuel with
  | zero =>
      intro current endDay h
      rfl
  | succ n ih =>
      intro current endDay h
      have hle : current ≤ endDay := by omega
      simp only [generateLoop]
      rw [if_pos hle, branch_eq, ih (current + 1) endDay (by omega),
          range_map_shift, List.filter_cons]
      by_cases hp : passFilter we wd current = true
      · rw [if_pos hp, if_pos hp, List.map_cons, List.singleton_append]
      · rw [if_neg hp, if_neg hp, List.nil_append]

theorem generateLoop_both (fuel : Nat) :
    ∀ (cur endDay : Nat),
      generateLoop true true fuel cur endDay
        = generateLoop false false fuel cur endDay := by
  induction fuel with
  | zero => intro cur endDay; rfl
  | succ n ih =>
      intro cur endDay
      simp only [generateLoop]
      by_cases hle : cur ≤ endDay
      · rw [if_pos hle, if_pos hle, ih]
        by_cases h : weekday cur ≥ 5
        · simp [h]
        · have h5 : weekday cur < 5 := by omega
          simp [h, h5]
      · rw [if_neg hle, if_neg hle]

theorem passFilter_flags (f : DateFilter) (z : Nat) :
    passFilter (f.flags).1 (f.flags).2 z = f.admits z := by
  have h7 : weekday z < 7 := weekday_lt z
  cases f
  · rfl
  · by_cases h : weekday z ≥ 5
    · have h56 : weekday z = 5 ∨ weekday z = 6 := by omega
      rcases h56 with h5 | h5 <;>
        simp [passFilter, DateFilter.flags, DateFilter.admits, h5, h]
    · have h5 : weekday z ≠ 5 := by omega
      have h6 : weekday z ≠ 6 := by omega
      simp [passFilter, DateFilter.flags, DateFilter.admits, h5, h6, h]
  · by_cases h : weekday z < 5 <;>
      simp [passFilter, DateFilter.flags, DateFilter.admits, h]

theorem pow_range_shift (m start : Nat) :
    (List.range (m + 1)).map (fun i => 2 ^ (start + i))
      = 2 ^ start :: (List.range m).map (fun i => 2 ^ (start + 1 + i)) := by
  rw [List.range_succ_eq_map, List.map_cons, List.map_map]
  simp only [Nat.add_zero]
  refine congrArg (List.cons (2 ^ start)) (List.map_congr_left ?_)
  intro i _
  simp only [Function.comp_apply]
  congr 1
  omega

theorem makeRequestLoop_429 (responses : Nat → Response) (fuel start : Nat)
    (acc : List Nat) (h : (responses start).status = 429) :
    makeRequestLoop responses (fuel + 1) start acc
      = makeRequestLoop responses fuel (start + 1) (2 ^ start :: acc) := by
  simp only [makeRequestLoop]
  rw [if_pos h]

theorem makeRequestLoop_not429 (responses : Nat → Response) (fuel start : Nat)
    (acc : List Nat) (h : (responses start).status ≠ 429) :
    (makeRequestLoop responses (fuel + 1) start acc).sleeps = acc.reverse ∧
    (makeRequestLoop responses (fuel + 1) start acc).requests = start + 1 := by
  simp only [makeRequestLoop]
  rw [if_neg h]
  split
  · exact ⟨rfl, rfl⟩
  · split
    · exact ⟨rfl, rfl⟩
    · split
      · exact ⟨rfl, rfl⟩
      · split
        · exact ⟨rfl, rfl⟩
        · exact ⟨rfl, rfl⟩

theorem makeRequestLoop_sleeps (responses : Nat → Response) :
    ∀ (fuel start : Nat) (acc : List Nat),
      ∃ m, m ≤ fuel ∧
        (makeRequestLoop responses fuel start acc).sleeps
          = acc.reverse ++ (List.range m).map (fun i => 2 ^ (start + i)) ∧
        (makeRequestLoop responses fuel start acc).requests ≤ start + fuel := by
  intro fuel
  induction fuel with
  | zero =>
      intro start acc
      exact ⟨0, Nat.le_refl 0, by simp [makeRequestLoop], by simp [makeRequestLoop]⟩
  | succ n ih =>
      intro start acc
      by_cases h429 : (responses start).status = 429
      · rcases ih (start + 1) (2 ^ start :: acc) with ⟨m, hm, hs, hr⟩
        refine ⟨m + 1, by omega, ?_, ?_⟩
        · rw [makeRequestLoop_429 responses n start acc h429, hs,
              List.reverse_cons, List.append_assoc, List.singleton_append,
              pow_range_shift]
        · rw [makeRequestLoop_429 responses n start acc h429]
          omega
      · rcases makeRequestLoop_not429 responses n start acc h429 with ⟨hs, hr⟩
        exact ⟨0, Nat.zero_le _, by rw [hs]; simp, by omega⟩

theorem makeRequestLoop_401 (responses : Nat → Response) :
    ∀ (j fuel start : Nat) (acc : List Nat), j < fuel →
      (∀ i, i < j → (responses (start + i)).status = 429) →
      (responses (start + j)).status = 401 →
      makeRequestLoop responses fuel start acc
        = { result := .error (.environmentError
              "Authentication failed. Check AMADEUS_API_KEY and AMADEUS_API_SECRET."),
            sleeps := acc.reverse ++ (List.range j).map (fun i => 2 ^ (start + i)),
            requests := start + j + 1 } := by
  intro j
  induction j with
  | zero =>
      intro fuel start acc hj h429 h401
      match fuel, hj with
      | fuel + 1, _ =>
        have h0 : (responses start).status = 401 := by simpa using h401
        simp only [makeRequestLoop]
        rw [if_neg (by rw [h0]; decide), if_pos h0]
        simp
  | succ m ih =>
      intro fuel start acc hj h429 h401
      match fuel, hj with
      | fuel + 1, _ =>
        have h0 : (responses start).status = 429 := by simpa using h429 0 (by omega)
        rw [makeRequestLoop_429 responses fuel start acc h0]
        rw [ih fuel (start + 1) (2 ^ start :: acc) (by omega)
              (fun i hi => by
                have h := h429 (i + 1) (by omega)
                rwa [show start + (i + 1) = start + 1 + i from by omega] at h)
              (by
                have h := h401
                rwa [show start + (m + 1) = start + 1 + m from by omega] at h)]
        have hs : (2 ^ start :: acc).reverse
              ++ (List.range m).map (fun i => 2 ^ (start + 1 + i))
            = acc.reverse ++ (List.range (m + 1)).map (fun i => 2 ^ (start + i)) := by
          rw [List.reverse_cons, List.append_assoc, List.singleton_append,
              pow_range_shift]
        rw [hs, show start + 1 + m + 1 = start + (m + 1) + 1 from by omega]

/-- Claim C5: for every start date, end date and filter choice,
`generate_date_range` returns, in calendar order, exactly the days from start
to end inclusive that pass the filter: every day under no filter, only
Saturdays and Sundays under weekendsOnly, only Monday through Friday under
weekdaysOnly; in particular the range 2026-03-01..2026-03-07 under
weekendsOnly yields exactly those two weekend days in that order. -/
theorem C5_date_range_generation (s e : String) (a b : Nat) (f : DateFilter)
    (hs : parse_date s = some a) (he : parse_date e = some b) :
    generate_date_range s e (f.flags).1 (f.flags).2
      = some ((((List.range (b + 1 - a)).map (fun i => a + i)).filter
          f.admits).map format_date)
    ∧ generate_date_range "2026-03-01" "2026-03-07" true false
      = some ["2026-03-01", "2026-03-07"] := by
  constructor
  · simp only [generate_date_range, hs, he]
    rw [generateLoop_eq (f.flags).1 (f.flags).2 (b + 1 - a) a b rfl]
    refine congrArg some (congrArg (List.map format_date) (List.filter_congr ?_))
    intro z _
    exact passFilter_flags f z
  · decide

/-- Witness for C5 at the concrete weekend example. -/
theorem C5_date_range_generation_witness :
    generate_date_range "2026-03-01" "2026-03-07"
        (DateFilter.weekendsOnly.flags).1 (DateFilter.weekendsOnly.flags).2
      = some ((((List.range (739987 + 1 - 739981)).map (fun i => 739981 + i)).filter
          DateFilter.weekendsOnly.admits).map format_date)
    ∧ generate_date_range "2026-03-01" "2026-03-07" true false
      = some ["2026-03-01", "2026-03-07"] :=
  C5_date_range_generation "2026-03-01" "2026-03-07" 739981 739987
    DateFilter.weekendsOnly (by decide) (by decide)

/-- Claim C10: with both weekends_only and weekdays_only set,
`generate_date_range` silently behaves as no filter: every day whose weekday
is at least 5 enters through the weekend branch and every other day through
the weekday branch, so the output equals the both-flags-false output. -/
theorem C10_both_flags_no_filter (s e : String) (a b : Nat)
    (hs : parse_date s = some a) (he : parse_date e = some b) (hab : a ≤ b) :
    generate_date_range s e true true = generate_date_range s e false false := by
  have hub : a ≤ b := hab
  simp only [generate_date_range, hs, he]
  rw [generateLoop_both]

/-- Witness for C10 at a concrete week. -/
theorem C10_both_flags_no_filter_witness :
    generate_date_range "2026-03-01" "2026-03-07" true true
      = generate_date_range "2026-03-01" "2026-03-07" false false :=
  C10_both_flags_no_filter "2026-03-01" "2026-03-07" 739981 739987
    (by decide) (by decide) (by decide)

/-- Claim C2: on consecutive 429 responses `make_request` waits 2^(k-1)
seconds before retry attempt k (the k-th sleep of the trace is 2^(k-1)),
issues at most the fixed ceiling of 3 attempts, and when all three attempts
are rate limited it fails with the retries-exhausted error rather than
returning silently. -/
theorem C2_rate_limit_backoff (responses : Nat → Response) :
    (make_request responses 3).sleeps
      = (List.range (make_request responses 3).sleeps.length).map (fun k => 2 ^ k)
    ∧ (make_request responses 3).requests ≤ 3
    ∧ ((∀ i, i < 3 → (responses i).status = 429) →
        make_request responses 3
          = { result := .error (.exception "Max retries exceeded due to rate limiting"),
              sleeps := [1, 2, 4], requests := 3 }) := by
  rcases makeRequestLoop_sleeps responses 3 0 [] with ⟨m, hm, hs, hr⟩
  refine ⟨?_, ?_, ?_⟩
  · rw [make_request, hs]
    simp only [List.reverse_nil, List.nil_append, List.length_map,
      List.length_range, Nat.zero_add]
  · rw [make_request]
    omega
  · intro h
    rw [make_request, makeRequestLoop_429 _ _ _ _ (h 0 (by omega)),
        makeRequestLoop_429 _ _ _ _ (h 1 (by omega)),
        makeRequestLoop_429 _ _ _ _ (h 2 (by omega))]
    rfl

/-- Witness for C2: the constantly rate-limited stream. -/
theorem C2_rate_limit_backoff_witness :
    make_request (fun _ => { status := 429, text := "", jsonBody := none }) 3
      = { result := .error (.exception "Max retries exceeded due to rate limiting"),
          sleeps := [1, 2, 4], requests := 3 } :=
  (C2_rate_limit_backoff (fun _ => { status := 429, text := "", jsonBody := none })).2.2
    (fun _ _ => rfl)

/-- Claim C8: a 401 response makes `make_request` fail immediately with the
authentication failure, regardless of the remaining retry budget: the only
sleeps are those of the 429 responses preceding it, and no further request is
issued after the 401. -/
theorem C8_401_short_circuit (responses : Nat → Response) (retries j : Nat)
    (hj : j < retries)
    (h429 : ∀ i, i < j → (responses i).status = 429)
    (h401 : (responses j).status = 401) :
    make_request responses retries
      = { result := .error (.environmentError
            "Authentication failed. Check AMADEUS_API_KEY and AMADEUS_API_SECRET."),
          sleeps := (List.range j).map (fun i => 2 ^ i),
          requests := j + 1 } := by
  rw [make_request,
      makeRequestLoop_401 responses j retries 0 [] hj
        (fun i hi => by simpa using h429 i hi)
        (by simpa using h401)]
  simp only [List.reverse_nil, List.nil_append, Nat.zero_add]

/-- Witness for C8: an immediate 401 with a full retry budget. -/
theorem C8_401_short_circuit_witness :
    make_request (fun _ => { status := 401, text := "", jsonBody := none }) 3
      = { result := .error (.environmentError
            "Authentication failed. Check AMADEUS_API_KEY and AMADEUS_API_SECRET."),
          sleeps := [], requests := 1 } := by
  have h := C8_401_short_circuit
    (fun _ => { status := 401, text := "", jsonBody := none }) 3 0
    (by omega) (fun i hi => absurd hi (Nat.not_lt_zero i)) rfl
  simpa using h

/-- Claim C6 is false as stated: a 500 response makes `make_request` raise
the `raise_for_status` HTTPError — in the embedding, the `.error` channel, a
raised language-native exception — rather than returning a typed outcome. -/
theorem C6_counterexample :
    (make_request (fun _ => resp500) 3).result
      = Except.error (PyError.httpError 500) := rfl

/-- Claim C6 amended: in `make_request` every status in 400..599 other than
429, 401 and 400 is raised as an HTTPError carrying the status code, after a
single request and no sleep; it is `lookup_airlines` that propagates a non-200
status as a typed outcome carrying the status code and the raw error
payload. -/
theorem C6_error_statuses (responses : Nat → Response) (resp : Response)
    (j : Json)
    (h4 : 400 ≤ (responses 0).status) (h6 : (responses 0).status < 600)
    (hn429 : (responses 0).status ≠ 429) (hn401 : (responses 0).status ≠ 401)
    (hn400 : (responses 0).status ≠ 400)
    (hjson : resp.jsonBody = some j) (hn200 : resp.status ≠ 200) :
    make_request responses 3
      = { result := .error (.httpError (responses 0).status),
          sleeps := [], requests := 1 }
    ∧ lookup_airlines resp
      = .ok (Json.obj [("error", j), ("status", Json.num (resp.status : ℚ))]) := by
  constructor
  · rw [make_request]
    simp only [makeRequestLoop]
    rw [if_neg hn429, if_neg hn401, if_neg hn400, if_pos ⟨h4, h6⟩]
    rfl
  · rw [lookup_airlines, if_pos hn200, hjson]

/-- Witness for C6 amended: a 500 in make_request and a 404 in
lookup_airlines. -/
theorem C6_error_statuses_witness :
    make_request (fun _ => resp500) 3
      = { result := .error (.httpError 500), sleeps := [], requests := 1 }
    ∧ lookup_airlines resp404
      = .ok (Json.obj [("error", Json.str "x"),
          ("status", Json.num ((404 : Nat) : ℚ))]) :=
  C6_error_statuses (fun _ => resp500) resp404
    (Json.str "x") (by decide) (by decide) (by decide) (by decide) (by decide)
    rfl (by decide)

/-- Claim C7 is false as stated: a 400 response whose JSON body is an object
with an empty errors array makes `make_request` raise IndexError from
`errors[0]` — a third failure mode, neither a client error carrying the first
structured detail nor one carrying the raw body text. -/
theorem C7_counterexample :
    (make_request (fun _ => resp400empty) 3).result
      = Except.error PyError.indexError
    ∧ PyError.indexError ≠ PyError.valueError ("Bad request: " ++ "T") :=
  ⟨rfl, by decide⟩

/-- Claim C7 amended: for a 400 response whose body parses to a JSON object,
`make_request` fails with the client ValueError whose detail is the first
error object's detail field when the errors array is nonempty, headed by an
object carrying one, and the raw body text when errors is absent or the head
object lacks a detail; bodies outside this shape fail in other ways (JSON
decode failure, IndexError on an empty errors array). -/
theorem C7_bad_request_detail (responses : Nat → Response)
    (fields : List (String × Json))
    (h400 : (responses 0).status = 400)
    (hbody : (responses 0).jsonBody = some (Json.obj fields)) :
    (fields.lookup "errors" = none →
      (make_request responses 3).result
        = .error (.valueError ("Bad request: " ++ (responses 0).text)))
    ∧ (∀ efields rest d,
        fields.lookup "errors" = some (Json.arr (Json.obj efields :: rest)) →
        efields.lookup "detail" = some d →
        (make_request responses 3).result
          = .error (.valueError ("Bad request: " ++ pyStr d)))
    ∧ (∀ efields rest,
        fields.lookup "errors" = some (Json.arr (Json.obj efields :: rest)) →
        efields.lookup "detail" = none →
        (make_request responses 3).result
          = .error (.valueError ("Bad request: " ++ (responses 0).text))) := by
  have hstep : (make_request responses 3).result
      = .error (badRequestError (responses 0)) := by
    rw [make_request]
    simp only [makeRequestLoop]
    rw [if_neg (by rw [h400]; decide), if_neg (by rw [h400]; decide), if_pos h400]
  refine ⟨?_, ?_, ?_⟩
  · intro hno
    rw [hstep]
    simp [badRequestError, hbody, pyGetD, hno, pyStr]
  · intro efields rest d hsome hd
    rw [hstep]
    simp [badRequestError, hbody, pyGetD, hsome, hd]
  · intro efields rest hsome hno
    rw [hstep]
    simp [badRequestError, hbody, pyGetD, hsome, hno, pyStr]

/-- Witness for C7 amended: a 400 whose first error carries detail D. -/
theorem C7_bad_request_detail_witness :
    (make_request (fun _ => resp400detail) 3).result
      = .error (.valueError ("Bad request: " ++ pyStr (Json.str "D"))) :=
  (C7_bad_request_detail (fun _ => resp400detail)
      [("errors", Json.arr [Json.obj [("detail", Json.str "D")]])]
      rfl rfl).2.1
    [("detail", Json.str "D")] [] (Json.str "D") rfl rfl

theorem load_cached_token_numeric (fields : List (String × Json)) (now q : ℚ)
    (h : ((fields.lookup "expires_at").getD (Json.num 0)).asNum = some q) :
    load_cached_token (some (some (Json.obj fields))) now
      = .ok (if q > now + 60 then some (Json.obj fields) else none) := by
  simp only [load_cached_token, pyGetD, pyGtNum, h]
  by_cases hc : q > now + 60 <;> simp [hc]

theorem getTokenFetch_calls (fetchRes : Except PyError Json) :
    (getTokenFetch fetchRes).fetchCalls = 1 := by
  cases fetchRes <;> rfl

/-- Claim C1: for a well-formed cached token record, get_token performs the
token exchange (a fetch_new_token call) iff the record is absent, unreadable
or has expires_at ≤ now + 60; when expires_at > now + 60 it returns the
cached access_token with no network call, so two calls within the validity
window return the identical token with zero exchanges. -/
theorem C1_token_cache (fields : List (String × Json)) (tok : String) (e : ℚ)
    (fetchRes : Except PyError Json)
    (hTok : fields.lookup "access_token" = some (.str tok))
    (hExp : fields.lookup "expires_at" = some (.num e)) :
    (∀ now, e > now + 60 →
      get_token (some (some (.obj fields))) now fetchRes
        = { result := .ok (.str tok), fetchCalls := 0 })
    ∧ (∀ now, ((get_token (some (some (.obj fields))) now fetchRes).fetchCalls = 1
        ↔ e ≤ now + 60))
    ∧ (∀ now : ℚ, (get_token none now fetchRes).fetchCalls = 1)
    ∧ (∀ now : ℚ, (get_token (some none) now fetchRes).fetchCalls = 1)
    ∧ (∀ n1 n2, e > n1 + 60 → e > n2 + 60 →
        (get_token (some (some (.obj fields))) n1 fetchRes).result
          = (get_token (some (some (.obj fields))) n2 fetchRes).result
        ∧ (get_token (some (some (.obj fields))) n1 fetchRes).fetchCalls
            + (get_token (some (some (.obj fields))) n2 fetchRes).fetchCalls ≤ 1) := by
  have hload : ∀ now : ℚ, load_cached_token (some (some (.obj fields))) now
      = .ok (if e > now + 60 then some (.obj fields) else none) :=
    fun now => load_cached_token_numeric fields now e (by simp [hExp, Json.asNum])
  have htx : pyTruthy (.obj fields) = true := by
    cases fields with
    | nil => simp at hTok
    | cons p ps => rfl
  have hres : ∀ now : ℚ, e > now + 60 →
      get_token (some (some (.obj fields))) now fetchRes
        = { result := .ok (.str tok), fetchCalls := 0 } := by
    intro now h
    simp [get_token, hload now, h, htx, pySubscript, hTok]
  refine ⟨hres, ?_, ?_, ?_, ?_⟩
  · intro now
    constructor
    · intro h1
      by_contra hlt
      rw [hres now (lt_of_not_le hlt)] at h1
      simp at h1
    · intro hle
      have hc : ¬ e > now + 60 := not_lt.mpr hle
      simp [get_token, hload now, hc, getTokenFetch_calls]
  · intro now
    simp [get_token, load_cached_token, getTokenFetch_calls]
  · intro now
    simp [get_token, load_cached_token, getTokenFetch_calls]
  · intro n1 n2 h1 h2
    rw [hres n1 h1, hres n2 h2]
    exact ⟨rfl, by norm_num⟩

/-- Witness for C1: a fresh cached token served without an exchange. -/
theorem C1_token_cache_witness :
    get_token (some (some (Json.obj [("access_token", Json.str "tokA"),
        ("expires_at", Json.num 1000)]))) 0 (Except.ok (Json.obj []))
      = { result := Except.ok (Json.str "tokA"), fetchCalls := 0 } :=
  ((C1_token_cache [("access_token", Json.str "tokA"), ("expires_at", Json.num 1000)]
      "tokA" 1000 (Except.ok (Json.obj [])) rfl rfl).1) 0 (by norm_num)

/-- Claim C9 is false as stated for the flights copy: the cache file content
may be well-formed JSON that is not an object — here the array [] — and then
the AttributeError from data.get escapes the except clause, so
load_cached_token raises instead of treating it as no-cache. -/
theorem C9_counterexample :
    load_cached_token (some (some (Json.arr []))) 0
      = Except.error PyError.attributeError := rfl

/-- Claim C9 amended: a missing file or unparseable text is treated as the
no-cache result without raising; the flights copy is moreover exception-free
whenever the parsed JSON is an object whose expires_at, if present, is
numeric, while the experiences copy (bare except) never raises for any
content and returns no-cache wherever the flights copy would raise. -/
theorem C9_no_raise (file : CacheFile) (now : ℚ)
    (hshape : ∀ j, file = some (some j) → flightsSafeJson j) :
    (∃ r, load_cached_token file now = .ok r)
    ∧ (∀ (f2 : CacheFile) (n2 : ℚ),
        load_cached_token f2 n2 = .ok (load_cached_token_exp f2 n2)
          ∨ load_cached_token_exp f2 n2 = none) := by
  constructor
  · rcases file with _ | f
    · exact ⟨none, rfl⟩
    · rcases f with _ | j
      · exact ⟨none, rfl⟩
      · have hj := hshape j rfl
        rcases j with _ | b | q | s | elems | fields
        · exact hj.elim
        · exact hj.elim
        · exact hj.elim
        · exact hj.elim
        · exact hj.elim
        · rcases hlk : fields.lookup "expires_at" with _ | v
          · exact ⟨_, load_cached_token_numeric fields now 0
              (by simp [hlk, Json.asNum])⟩
          · simp only [flightsSafeJson, hlk] at hj
            rcases hq : v.asNum with _ | q2
            · rw [hq] at hj
              exact absurd hj (by decide)
            · exact ⟨_, load_cached_token_numeric fields now q2
                (by simp [hlk, hq])⟩
  · intro f2 n2
    rcases f2 with _ | f
    · exact Or.inl rfl
    · rcases f with _ | j
      · exact Or.inl rfl
      · rcases j with _ | b | q | s | elems | fields
        · exact Or.inr rfl
        · exact Or.inr rfl
        · exact Or.inr rfl
        · exact Or.inr rfl
        · exact Or.inr rfl
        · rcases hv : ((fields.lookup "expires_at").getD (Json.num 0)).asNum
            with _ | q2
          · right
            simp [load_cached_token_exp, pyGetD, pyGtNum, hv]
          · left
            rw [load_cached_token_numeric fields n2 q2 hv]
            simp only [load_cached_token_exp, pyGetD, pyGtNum, hv]
            by_cases hc : q2 > n2 + 60 <;> simp [hc]

/-- Witness for C9 amended: an object-shaped cache with numeric expiry. -/
theorem C9_no_raise_witness :
    ∃ r, load_cached_token (some (some (Json.obj [("expires_at", Json.num 0)]))) 5
      = .ok r :=
  (C9_no_raise (some (some (Json.obj [("expires_at", Json.num 0)]))) 5
    (fun j hj => by
      injection hj with h1
      injection h1 with h2
      rw [← h2]
      exact rfl)).1

theorem processDate_ok (searchFn : String → Option String → Except String SearchData)
    (rad : Option Nat) (currency d : String)
    (hp : ∀ n, rad = some n → n ≠ 0 → (parse_date d).isSome) :
    processDate searchFn rad currency d
      = .ok (entryOf searchFn rad currency d) := by
  unfold processDate entryOf returnDateFor returnDatePure
  rcases rad with _ | n
  · rfl
  · by_cases h0 : n = 0
    · simp [h0]
    · have hps := hp n rfl h0
      rcases hq : parse_date d with _ | z
      · rw [hq] at hps
        exact absurd hps (by decide)
      · simp [h0, hq]

theorem processAll_ok (searchFn : String → Option String → Except String SearchData)
    (rad : Option Nat) (currency : String) :
    ∀ dates : List String,
      (∀ d, d ∈ dates → ∀ n, rad = some n → n ≠ 0 → (parse_date d).isSome) →
      processAll searchFn rad currency dates
        = .ok (dates.map (entryOf searchFn rad currency)) := by
  intro dates
  induction dates with
  | nil => intro h; rfl
  | cons d ds ih =>
      intro h
      rw [processAll,
          processDate_ok searchFn rad currency d
            (fun n hn h0 => h d (List.mem_cons_self d ds) n hn h0),
          ih (fun d2 hd2 n hn h0 => h d2 (List.mem_cons_of_mem d hd2) n hn h0)]
      rfl

theorem buildEntry_departure (d : String) (ret : Option String) (c : String)
    (r : Except String SearchData) : (buildEntry d ret c r).departure_date = d := by
  rcases r with msg | data
  · rfl
  · rcases hd : data.data with _ | ⟨o, os⟩ <;> simp [buildEntry, hd]

theorem priceTruthy_iff (p : Option ℚ) :
    priceTruthy p = true ↔ p ≠ none ∧ p ≠ some 0 := by
  rcases p with _ | q
  · simp [priceTruthy]
  · simp [priceTruthy]

/-- Claim C3: for n dates, compare_dates produces exactly n entries, one per
date in emission order (the returned batch is a permutation of the per-date
entries in date order); a search failure or empty result for one date yields a
price-absent entry carrying the error message (the failure message or
"No flights found") without affecting the other dates, and the batch call
returns instead of raising. -/
theorem C3_partial_failure
    (searchFn : String → Option String → Except String SearchData)
    (origin destination currency : String) (dates : List String)
    (returnAfterDays : Option Nat)
    (hparse : ∀ d, d ∈ dates → ∀ n, returnAfterDays = some n → n ≠ 0 →
      (parse_date d).isSome) :
    processAll searchFn returnAfterDays currency dates
        = .ok (dates.map (entryOf searchFn returnAfterDays currency))
    ∧ (∃ res, compare_dates searchFn origin destination dates returnAfterDays currency
          = .ok res
        ∧ res.comparison.length = dates.length
        ∧ res.comparison.Perm (dates.map (entryOf searchFn returnAfterDays currency)))
    ∧ (∀ d, (entryOf searchFn returnAfterDays currency d).departure_date = d)
    ∧ (∀ d msg, searchFn d (returnDatePure returnAfterDays d) = .error msg →
        (entryOf searchFn returnAfterDays currency d).price = none
        ∧ (entryOf searchFn returnAfterDays currency d).error = some msg)
    ∧ (∀ d sd, searchFn d (returnDatePure returnAfterDays d) = .ok sd →
        sd.data = [] →
        (entryOf searchFn returnAfterDays currency d).price = none
        ∧ (entryOf searchFn returnAfterDays currency d).error
            = some "No flights found") := by
  have hall := processAll_ok searchFn returnAfterDays currency dates hparse
  refine ⟨hall, ?_, ?_, ?_, ?_⟩
  · refine ⟨_, by rw [compare_dates, hall], ?_, ?_⟩
    · exact ((sortResults_perm _).length_eq).trans (List.length_map _ _)
    · exact sortResults_perm _
  · intro d
    exact buildEntry_departure d (returnDatePure returnAfterDays d) currency
      (searchFn d (returnDatePure returnAfterDays d))
  · intro d msg hmsg
    unfold entryOf
    rw [hmsg]
    exact ⟨rfl, rfl⟩
  · intro d sd hsd hempty
    unfold entryOf
    rw [hsd]
    simp [buildEntry, hempty]

/-- Witness for C3: five dates, one empty result and one raised error. -/
theorem C3_partial_failure_witness :
    processAll exSearchFn none "GBP" ["d1", "d2", "d3", "d4", "d5"]
      = .ok (["d1", "d2", "d3", "d4", "d5"].map (entryOf exSearchFn none "GBP")) :=
  (C3_partial_failure exSearchFn "LHR" "BCN" "GBP" ["d1", "d2", "d3", "d4", "d5"]
    none (fun _ _ _ hn _ => Option.noConfusion hn)).1

/-- Claim C4 is false as stated: a batch whose only entry carries the present
price 0 yields cheapest = none, because results[0]["price"] is Python-falsy
at 0.0, refuting that cheapest equals the first entry iff its price is
present. -/
theorem C4_counterexample :
    compare_dates (fun _ _ => .ok { data := [exOffer 0], carriers := [] })
        "LHR" "BCN" ["2026-03-15"] none "GBP"
      = .ok { origin := "LHR", destination := "BCN",
              comparison := [zeroEntry], cheapest := none } := rfl

/-- Claim C4 amended: every batch produced by compare_dates is a stable
permutation of the per-date entries sorted ascending by the key pair
(price is absent, price-or-infinity): ascending by price among present
nonzero prices, with present zero prices ordered after them (the falsy 0 is
replaced by infinity) and absent prices last, stable within equal keys; the
cheapest field equals the first sorted entry iff that entry's price is
present and nonzero; in particular prices [120, absent, 95, absent, 200]
sort to [95, 120, 200, absent, absent] with cheapest the 95 entry. -/
theorem C4_ranking (searchFn : String → Option String → Except String SearchData)
    (origin destination currency : String) (dates : List String)
    (returnAfterDays : Option Nat) (res : CompareResult)
    (h : compare_dates searchFn origin destination dates returnAfterDays currency
        = .ok res) :
    (∃ raw, processAll searchFn returnAfterDays currency dates = .ok raw
      ∧ res.comparison.Perm raw
      ∧ res.comparison.Pairwise (fun a b => keyLE a b = true)
      ∧ (∀ k, res.comparison.filter (fun en => decide (sortKey en = k))
          = raw.filter (fun en => decide (sortKey en = k))))
    ∧ (res.comparison = [] → res.cheapest = none)
    ∧ (∀ e0 rest, res.comparison = e0 :: rest →
        res.cheapest
          = if e0.price ≠ none ∧ e0.price ≠ some 0 then some e0 else none)
    ∧ ((compare_dates exSearchFn "LHR" "BCN" ["d1", "d2", "d3", "d4", "d5"]
          none "GBP").map
        (fun r => (r.comparison.map Entry.price,
          r.cheapest.map (fun en => (en.departure_date, en.price)))))
      = .ok ([some 95, some 120, some 200, none, none], some ("d3", some 95)) := by
  rcases hall : processAll searchFn returnAfterDays currency dates with er | raw
  · rw [compare_dates, hall] at h
    exact absurd h (by simp)
  · rw [compare_dates, hall] at h
    injection h with h2
    subst h2
    refine ⟨⟨raw, rfl, sortResults_perm raw, sortResults_pairwise raw,
      fun k => sortResults_filter raw k⟩, ?_, ?_, ?_⟩
    · intro hempty
      have hempty2 : sortResults raw = [] := hempty
      show cheapestOf (sortResults raw) = none
      rw [hempty2]
      rfl
    · intro e0 rest hcons
      have hcons2 : sortResults raw = e0 :: rest := hcons
      show cheapestOf (sortResults raw) = _
      rw [hcons2]
      simp only [cheapestOf]
      by_cases ht : priceTruthy e0.price = true
      · rw [if_pos ht, if_pos ((priceTruthy_iff e0.price).mp ht)]
      · rw [if_neg ht, if_neg (fun hc => ht ((priceTruthy_iff e0.price).mpr hc))]
    · rfl

/-- Witness for C4 amended: the single-date failing batch. -/
theorem C4_ranking_witness :
    c4Res.cheapest
      = (if failEntryA.price ≠ none ∧ failEntryA.price ≠ some 0
          then some failEntryA else none) :=
  (C4_ranking (fun _ _ => .error "x") "LHR" "BCN" "GBP" ["a"] none c4Res
    rfl).2.2.1 failEntryA [] rfl

end Travelclaw
